import Mathlib

/-
Shallow embedding of src/kernel/src/arch/x86_64/init/mod.rs (DragonOS,
x86_64 architecture bring-up).

Modelling conventions:
  * Machine integers are Nat; where the source truncates (the `as u16` and
    `as u32` casts) the truncation is written explicitly as `% 65536` /
    `% 4294967296`.  Rust release-mode (wrapping) arithmetic is modelled.
  * Collaborator calls that live outside this file's source
    (MMArch::phys_2_virt, multiboot2_init, arch_trap_init, hpet_init,
    hpet_enable, init_acpi_pm_clocksource, TSCManager::init) are oracles:
    their results are inputs to the embedded functions, and the fact that
    they were invoked is recorded in an event trace.
  * A Rust `.unwrap()` / `.expect(msg)` on a failed result is modelled as
    an `Outcome.panicked msg` final outcome; the trace records everything
    executed before the panic.
-/

/-- DescriptorTablePointer mirrors x86::dtables::DescriptorTablePointer as
used in kernel_main: a virtual base address and a 16-bit limit.  `limit`
is a u16 in the source; here it is a Nat whose constructor sites always
supply a value < 65536. -/
structure DescriptorTablePointer where
  base : Nat
  limit : Nat
deriving DecidableEq, Repr

/-- Event records one observable step of the bring-up code, in the order the
source performs them. -/
inductive Event where
  | translateCall (paddr : Nat)
  | lgdt (p : DescriptorTablePointer)
  | lidt (p : DescriptorTablePointer)
  | fence
  | multiboot2Init (info : Nat) (magic : Nat) (result : Bool)
  | startKernel
  | setTss (stack_start ist0 : Nat)
  | loadTR
  | trapInit
  | hpetInit
  | hpetEnable
  | acpiPmInit
  | tscInit
deriving DecidableEq, Repr

/-- Outcome of a bring-up stage: normal return, a panic (Rust
unwrap/expect failure, which halts the boot), or the non-returning
hand-off to generic kernel startup. -/
inductive Outcome where
  | ok
  | startedKernel
  | panicked (msg : String)
deriving DecidableEq, Repr

/-- StageResult packages the event trace of a stage together with its
final outcome. -/
structure StageResult where
  trace : List Event
  outcome : Outcome
deriving DecidableEq, Repr

/-- unwrap_msg is the panic message Rust produces for `.unwrap()` on a
`None` value (backtick-free rendering). -/
def unwrap_msg : String := "called Option::unwrap() on a None value"

/-- limit16 models `size as u16 - 1` from kernel_main (mod.rs lines 53 and
57): the u64 byte size is first truncated to 16 bits by the cast, then 1 is
subtracted with u16 wrapping semantics (release build). -/
def limit16 (size : Nat) : Nat := (size % 65536 + 65535) % 65536

/-- kernel_main models the entry trampoline (mod.rs lines 39-72).
Arguments mirror the Rust parameters (mb2_info, mb2_magic, bsp_gdt_size,
bsp_idt_size); gdt_paddr/idt_paddr stand for the addresses of GDT_Table and
IDT_Table, translate for MMArch::phys_2_virt, and mb2_result for the
boolean returned by the external multiboot2_init.  The source translates
both table addresses first (lines 47-50, each `.unwrap()`), builds both
descriptor-table pointers, loads GDT then IDT (lines 61-62), emits a
compiler fence, calls multiboot2_init with the low 32 bits of the magic
value (line 67), emits a second fence, and transfers to start_kernel. -/
def kernel_main (mb2_info mb2_magic bsp_gdt_size bsp_idt_size : Nat)
    (gdt_paddr idt_paddr : Nat) (translate : Nat → Option Nat)
    (mb2_result : Bool) : StageResult :=
  match translate gdt_paddr with
  | none => ⟨[Event.translateCall gdt_paddr], Outcome.panicked unwrap_msg⟩
  | some gdt_vaddr =>
    match translate idt_paddr with
    | none =>
      ⟨[Event.translateCall gdt_paddr, Event.translateCall idt_paddr],
        Outcome.panicked unwrap_msg⟩
    | some idt_vaddr =>
      let gdtp : DescriptorTablePointer := ⟨gdt_vaddr, limit16 bsp_gdt_size⟩
      let idtp : DescriptorTablePointer := ⟨idt_vaddr, limit16 bsp_idt_size⟩
      ⟨[Event.translateCall gdt_paddr, Event.translateCall idt_paddr,
        Event.lgdt gdtp, Event.lidt idtp, Event.fence,
        Event.multiboot2Init mb2_info (mb2_magic % 4294967296) mb2_result,
        Event.fence, Event.startKernel],
        Outcome.startedKernel⟩

/-- kernel_main_claimed_trace renders the step order asserted by the spec's
entry-trampoline contract: step (a) "translate and load the GDT" completes
(translation immediately followed by the load) before step (b) "translate
and load the IDT" begins, then fence, boot-info bridge, fence, startup.
Pointer contents are kept identical to the code's (limit16) so that the
comparison with kernel_main's actual trace isolates the ordering question.
This definition follows the spec's words, not the source, and exists only
to be compared with kernel_main. -/
def kernel_main_claimed_trace (info magic32 gsz isz g i v w : Nat)
    (res : Bool) : List Event :=
  [Event.translateCall g, Event.lgdt ⟨v, limit16 gsz⟩,
   Event.translateCall i, Event.lidt ⟨w, limit16 isz⟩,
   Event.fence, Event.multiboot2Init info magic32 res,
   Event.fence, Event.startKernel]

/-- TSS is the per-core task state segment.  Modelled from the spec: the
TSS type and TSSManager live outside this file's source; the spec's data
model lists the fields relevant here — the ring-0 stack pointer and the
(indexable) Interrupt Stack Table slots, of which x86_64 hardware has 7. -/
structure TSS where
  rsp0 : Nat
  ist : Fin 7 → Nat

/-- tss_default is an all-zero segment, used as the pre-configuration state
of a core's TSS in concrete instances. -/
def tss_default : TSS := { rsp0 := 0, ist := fun _ => 0 }

/-- set_current_core_tss models mod.rs lines 118-126.  The source takes two
arguments (stack_start, ist0), fetches the executing core's own segment via
TSSManager::current_tss(), sets the ring-0 stack pointer to stack_start and
IST slot 0 (the literal index in `set_ist(0, ist0)`) to ist0.  The per-core
registry is modelled as a function from core id to TSS, and the executing
core's identity as the extra argument `core`; only that core's entry is
updated. -/
def set_current_core_tss (stack_start ist0 : Nat) (core : Nat)
    (reg : Nat → TSS) : Nat → TSS :=
  Function.update reg core
    { rsp0 := stack_start
      ist := Function.update (reg core).ist 0 ist0 }

/-- EarlyResult is the outcome of early_setup_arch: the updated per-core
TSS registry, the event trace, and the final outcome. -/
structure EarlyResult where
  reg : Nat → TSS
  trace : List Event
  outcome : Outcome

/-- early_setup_arch models mod.rs lines 76-96.  The source reads the
initial stack top from head_stack_start (input stack_start), translates the
GDT and IDT table addresses for a debug log (each `.unwrap()`, lines
80-83), calls set_current_core_tss(stack_start, 0), loads the task
register, and finally calls arch_trap_init() under
`.expect("arch_trap_init failed")`; on success it returns Ok(()).  The
collaborator results are the oracle inputs translate and trap_ok. -/
def early_setup_arch (stack_start : Nat) (core : Nat) (reg : Nat → TSS)
    (translate : Nat → Option Nat) (gdt_paddr idt_paddr : Nat)
    (trap_ok : Bool) : EarlyResult :=
  match translate gdt_paddr with
  | none => ⟨reg, [Event.translateCall gdt_paddr], Outcome.panicked unwrap_msg⟩
  | some _ =>
    match translate idt_paddr with
    | none =>
      ⟨reg, [Event.translateCall gdt_paddr, Event.translateCall idt_paddr],
        Outcome.panicked unwrap_msg⟩
    | some _ =>
      let reg' := set_current_core_tss stack_start 0 core reg
      let tr := [Event.translateCall gdt_paddr, Event.translateCall idt_paddr,
                 Event.setTss stack_start 0, Event.loadTR, Event.trapInit]
      if trap_ok then ⟨reg', tr, Outcome.ok⟩
      else ⟨reg', tr, Outcome.panicked "arch_trap_init failed"⟩

/-- SystemError stands in for the external system_error::SystemError enum;
the functions embedded here only ever return Ok, so a single inhabitant
suffices for the result type. -/
inductive SystemError where
  | some_error
deriving DecidableEq, Repr

/-- setup_arch models mod.rs lines 100-102: the post-memory-init
architecture hook whose whole body is `return Ok(());`.  It is given an
arbitrary state so that "no state change and no collaborator call" is
expressible: it returns the state unchanged, an empty trace, and Ok. -/
def setup_arch {α : Type} (st : α) : α × List Event × Except SystemError Unit :=
  (st, [], Except.ok ())

/-- tsc_step models the shared tail of setup_arch_post (mod.rs lines
113-115): TSCManager::init() is called, `.expect("tsc init failed")`
panics on failure, otherwise the stage returns Ok(()). -/
def tsc_step (tr : List Event) (tsc_ok : Bool) : StageResult :=
  if tsc_ok then ⟨tr ++ [Event.tscInit], Outcome.ok⟩
  else ⟨tr ++ [Event.tscInit], Outcome.panicked "tsc init failed"⟩

/-- setup_arch_post models mod.rs lines 106-116, the timer source selector.
hpet_init() is always attempted; if it returns Ok, hpet_enable() is called
under `.expect("hpet enable failed")`; otherwise init_acpi_pm_clocksource()
is called under `.expect("acpi_pm_timer inits failed")`; after either
successful primary source, TSCManager::init() runs (tsc_step).  The four
booleans are the oracle results of the four collaborator calls. -/
def setup_arch_post (hpet_ok hpet_enable_ok acpi_ok tsc_ok : Bool) :
    StageResult :=
  if hpet_ok then
    if hpet_enable_ok then tsc_step [Event.hpetInit, Event.hpetEnable] tsc_ok
    else ⟨[Event.hpetInit, Event.hpetEnable],
          Outcome.panicked "hpet enable failed"⟩
  else
    if acpi_ok then tsc_step [Event.hpetInit, Event.acpiPmInit] tsc_ok
    else ⟨[Event.hpetInit, Event.acpiPmInit],
          Outcome.panicked "acpi_pm_timer inits failed"⟩

/-- boot_sequence composes the entry trampoline with the early bring-up
stage.  Modelled from the spec: start_kernel (generic kernel startup) is
external to this file's source; per the spec's control-flow section it
calls back into early_setup_arch, so the composition runs early_setup_arch
exactly when kernel_main reached its hand-off, and otherwise stops with
kernel_main's outcome. -/
def boot_sequence (info magic gsz isz gdt_paddr idt_paddr : Nat)
    (translate : Nat → Option Nat) (mb2_result : Bool)
    (stack core : Nat) (reg : Nat → TSS) (trap_ok : Bool) :
    List Event × Outcome :=
  let k := kernel_main info magic gsz isz gdt_paddr idt_paddr translate mb2_result
  match k.outcome with
  | Outcome.startedKernel =>
    let e := early_setup_arch stack core reg translate gdt_paddr idt_paddr trap_ok
    (k.trace ++ e.trace, e.outcome)
  | o => (k.trace, o)

/-- C1 counterexample: the claim asserts limit == byte_size − 1 for all
64-bit byte_size values.  At byte_size = 65537 (with translation returning
4096) the pointer kernel_main loads has limit 0, not 65536 = 65537 − 1:
the `as u16` cast truncates the size before the subtraction. -/
theorem kernel_main_limit_truncates :
    Event.lgdt ⟨4096, 65536⟩ ∉
      (kernel_main 0 0 65537 32 1 2 (fun _ => some 4096) true).trace
  ∧ Event.lgdt ⟨4096, 0⟩ ∈
      (kernel_main 0 0 65537 32 1 2 (fun _ => some 4096) true).trace := by
  decide

/-- C1 (amended): whenever translation succeeds, the pointers kernel_main
loads have base equal to the translated virtual address and limit equal to
(byte_size − 1) reduced mod 2^16 — i.e. limit == byte_size − 1 exactly when
1 ≤ byte_size ≤ 65536, not for all 64-bit sizes. -/
theorem kernel_main_dtp_fields (info magic gsz isz g i v w : Nat)
    (translate : Nat → Option Nat) (res : Bool)
    (hg : translate g = some v) (hi : translate i = some w) :
    Event.lgdt ⟨v, limit16 gsz⟩ ∈
      (kernel_main info magic gsz isz g i translate res).trace
  ∧ Event.lidt ⟨w, limit16 isz⟩ ∈
      (kernel_main info magic gsz isz g i translate res).trace
  ∧ (1 ≤ gsz → gsz ≤ 65536 → limit16 gsz = gsz - 1)
  ∧ (1 ≤ isz → isz ≤ 65536 → limit16 isz = isz - 1)
  ∧ limit16 gsz = (gsz + 65535) % 65536 := by
  refine ⟨?_, ?_, ?_, ?_, ?_⟩
  · simp [kernel_main, hg, hi]
  · simp [kernel_main, hg, hi]
  · intro h1 h2; unfold limit16; omega
  · intro h1 h2; unfold limit16; omega
  · unfold limit16; omega

/-- C1 witness: the amended theorem applied at concrete inputs (sizes 16
and 32, translation returning 4096 everywhere). -/
theorem kernel_main_dtp_fields_witness :
    Event.lgdt ⟨4096, 15⟩ ∈
      (kernel_main 0 0 16 32 1 2 (fun _ => some 4096) true).trace
  ∧ limit16 16 = 16 - 1 := by
  have h := kernel_main_dtp_fields 0 0 16 32 1 2 4096 4096
    (fun _ => some 4096) true rfl rfl
  exact ⟨h.1, h.2.2.1 (by decide) (by decide)⟩

/-- C2: setup_arch_post implements exactly the claimed timer-selection
algorithm.  When HPET discovery succeeds, enable is attempted and the ACPI
PM timer is never touched; an enable failure halts the stage with "hpet
enable failed" and TSC is never reached.  When HPET discovery fails, the
ACPI PM timer is attempted and enable never runs.  After either primary
source succeeds TSC is always attempted; its failure halts the stage with
"tsc init failed" and its success lets the stage return Ok. -/
theorem setup_arch_post_selector :
    ∀ (e a t : Bool),
      (Event.hpetEnable ∈ (setup_arch_post true e a t).trace
        ∧ Event.acpiPmInit ∉ (setup_arch_post true e a t).trace)
    ∧ ((setup_arch_post true false a t).outcome
          = Outcome.panicked "hpet enable failed"
        ∧ Event.tscInit ∉ (setup_arch_post true false a t).trace
        ∧ Event.acpiPmInit ∉ (setup_arch_post true false a t).trace)
    ∧ (Event.acpiPmInit ∈ (setup_arch_post false e a t).trace
        ∧ Event.hpetEnable ∉ (setup_arch_post false e a t).trace)
    ∧ Event.tscInit ∈ (setup_arch_post true true a t).trace
    ∧ Event.tscInit ∈ (setup_arch_post false e true t).trace
    ∧ (setup_arch_post true true a false).outcome
        = Outcome.panicked "tsc init failed"
    ∧ (setup_arch_post false e true false).outcome
        = Outcome.panicked "tsc init failed"
    ∧ (setup_arch_post true true a true).outcome = Outcome.ok
    ∧ (setup_arch_post false e true true).outcome = Outcome.ok := by
  decide

/-- C2 witness: the selector theorem applied at concrete oracle results
(HPET present, enable succeeds, TSC succeeds). -/
theorem setup_arch_post_selector_witness :
    Event.hpetEnable ∈ (setup_arch_post true true true true).trace
  ∧ (setup_arch_post true true true true).outcome = Outcome.ok := by
  have h := setup_arch_post_selector true true true
  exact ⟨h.1.1, h.2.2.2.2.2.2.2.1⟩

/-- C3 counterexample: when HPET discovery fails and the ACPI PM timer
initialization fails, the halt diagnostic the code produces is
"acpi_pm_timer inits failed" (the literal expect string at mod.rs line
111), not the "acpi_pm_timer init failed" the claim quotes. -/
theorem setup_arch_post_acpi_fail_msg :
    (setup_arch_post false true false true).outcome
      ≠ Outcome.panicked "acpi_pm_timer init failed"
  ∧ (setup_arch_post false true false true).outcome
      = Outcome.panicked "acpi_pm_timer inits failed" := by
  decide

/-- C3 (amended): if HPET discovery fails and the ACPI PM timer
initialization also fails, setup_arch_post halts with the diagnostic
"acpi_pm_timer inits failed" and TSCManager::init is never invoked. -/
theorem setup_arch_post_acpi_fail_halts :
    ∀ (e t : Bool),
      (setup_arch_post false e false t).outcome
        = Outcome.panicked "acpi_pm_timer inits failed"
    ∧ Event.tscInit ∉ (setup_arch_post false e false t).trace := by
  decide

/-- C3 witness: the amended theorem applied at concrete oracle results. -/
theorem setup_arch_post_acpi_fail_halts_witness :
    (setup_arch_post false true false true).outcome
      = Outcome.panicked "acpi_pm_timer inits failed" :=
  (setup_arch_post_acpi_fail_halts true true).1

/-- C4 counterexample: kernel_main's trace does not follow the claimed
strict serialization in which step (a) translate-and-load-GDT completes
before step (b) translate-and-load-IDT begins: the source translates both
table addresses (lines 47-50) before loading either table (lines 61-62),
so the IDT translation precedes the GDT load. -/
theorem kernel_main_trace_not_claimed_order :
    (kernel_main 0 0 16 32 1 2 (fun _ => some 4096) true).trace
      ≠ kernel_main_claimed_trace 0 0 16 32 1 2 4096 4096 true
  ∧ (kernel_main 0 0 16 32 1 2 (fun _ => some 4096) true).trace
      = [Event.translateCall 1, Event.translateCall 2,
         Event.lgdt ⟨4096, 15⟩, Event.lidt ⟨4096, 31⟩, Event.fence,
         Event.multiboot2Init 0 0 true, Event.fence, Event.startKernel] := by
  decide

/-- C4 (amended): kernel_main performs, in strict order: translate the GDT
base, translate the IDT base, load the GDT, load the IDT, a compile-time
ordering barrier, the boot-info bridge call with the info pointer and
exactly the low 32 bits of the magic value, a second barrier, and the
non-returning transfer to generic kernel startup — both translations
precede both loads. -/
theorem kernel_main_trace_order (info magic gsz isz g i v w : Nat)
    (translate : Nat → Option Nat) (res : Bool)
    (hg : translate g = some v) (hi : translate i = some w) :
    (kernel_main info magic gsz isz g i translate res).trace
      = [Event.translateCall g, Event.translateCall i,
         Event.lgdt ⟨v, limit16 gsz⟩, Event.lidt ⟨w, limit16 isz⟩,
         Event.fence,
         Event.multiboot2Init info (magic % 4294967296) res,
         Event.fence, Event.startKernel]
  ∧ (kernel_main info magic gsz isz g i translate res).outcome
      = Outcome.startedKernel := by
  constructor <;> simp [kernel_main, hg, hi]

/-- C4 witness: the amended trace-order theorem applied at concrete
inputs. -/
theorem kernel_main_trace_order_witness :
    (kernel_main 7 4294967297 16 32 1 2 (fun _ => some 4096) true).trace
      = [Event.translateCall 1, Event.translateCall 2,
         Event.lgdt ⟨4096, 15⟩, Event.lidt ⟨4096, 31⟩, Event.fence,
         Event.multiboot2Init 7 1 true, Event.fence, Event.startKernel] :=
  (kernel_main_trace_order 7 4294967297 16 32 1 2 4096 4096
    (fun _ => some 4096) true rfl rfl).1

/-- C5: if translation of the GDT region's physical base yields no result
(and likewise for the IDT region), the boot aborts at the failed unwrap:
the boot-info bridge is never invoked, generic kernel startup is never
reached, no task-segment or trap operation ever executes, and the outcome
is a panic, not an error return. -/
theorem kernel_main_translation_failure_aborts
    (info magic gsz isz g i stack core : Nat) (reg : Nat → TSS)
    (translate : Nat → Option Nat) (res tok : Bool) :
    (translate g = none →
      (boot_sequence info magic gsz isz g i translate res stack core reg tok).1
          = [Event.translateCall g]
      ∧ (boot_sequence info magic gsz isz g i translate res stack core reg tok).2
          = Outcome.panicked unwrap_msg
      ∧ (∀ a b r, Event.multiboot2Init a b r ∉
          (boot_sequence info magic gsz isz g i translate res stack core reg tok).1)
      ∧ Event.startKernel ∉
          (boot_sequence info magic gsz isz g i translate res stack core reg tok).1
      ∧ (∀ s v0, Event.setTss s v0 ∉
          (boot_sequence info magic gsz isz g i translate res stack core reg tok).1)
      ∧ Event.loadTR ∉
          (boot_sequence info magic gsz isz g i translate res stack core reg tok).1
      ∧ Event.trapInit ∉
          (boot_sequence info magic gsz isz g i translate res stack core reg tok).1)
  ∧ (∀ v, translate g = some v → translate i = none →
      (boot_sequence info magic gsz isz g i translate res stack core reg tok).1
          = [Event.translateCall g, Event.translateCall i]
      ∧ (boot_sequence info magic gsz isz g i translate res stack core reg tok).2
          = Outcome.panicked unwrap_msg
      ∧ (∀ a b r, Event.multiboot2Init a b r ∉
          (boot_sequence info magic gsz isz g i translate res stack core reg tok).1)
      ∧ Event.startKernel ∉
          (boot_sequence info magic gsz isz g i translate res stack core reg tok).1
      ∧ (∀ s v0, Event.setTss s v0 ∉
          (boot_sequence info magic gsz isz g i translate res stack core reg tok).1)
      ∧ Event.loadTR ∉
          (boot_sequence info magic gsz isz g i translate res stack core reg tok).1
      ∧ Event.trapInit ∉
          (boot_sequence info magic gsz isz g i translate res stack core reg tok).1) := by
  constructor
  · intro hg
    simp [boot_sequence, kernel_main, hg, unwrap_msg]
  · intro v hg hi
    simp [boot_sequence, kernel_main, hg, hi, unwrap_msg]

/-- C5 witness: the abort theorem applied with a translation oracle that
always fails. -/
theorem kernel_main_translation_failure_aborts_witness :
    (boot_sequence 0 0 16 32 1 2 (fun _ => none) true 16 0
        (fun _ => tss_default) true).2 = Outcome.panicked unwrap_msg :=
  ((kernel_main_translation_failure_aborts 0 0 16 32 1 2 16 0
      (fun _ => tss_default) (fun _ => none) true true).1 rfl).2.1

/-- C6 counterexample: the claim describes the configuration step as taking
arguments (S, i, V) with "Interrupt Stack Table slot i == V" afterwards,
but the source function set_current_core_tss(stack_start, ist0) has no
slot-index argument: the slot is the literal 0 in set_ist(0, ist0).  At
the concrete configuration (S = 7, V = 5) on core 0 with an all-zero
registry, IST slot 1 still holds 0, not V = 5 — only slot 0 receives V. -/
theorem set_current_core_tss_slot_fixed :
    ((set_current_core_tss 7 5 0 (fun _ => tss_default)) 0).ist 1 ≠ 5
  ∧ ((set_current_core_tss 7 5 0 (fun _ => tss_default)) 0).ist 0 = 5 := by
  constructor <;> simp [set_current_core_tss, tss_default, Function.update]

/-- C6 (amended): the configuration step takes two arguments (S, V) and
always addresses IST slot 0.  After set_current_core_tss(S, V) on core C,
core C's segment has ring-0 stack pointer == S and IST[0] == V, no other
core's segment is modified, and in early_setup_arch the task register is
loaded only after both fields are set (the setTss event precedes loadTR in
the trace). -/
theorem set_current_core_tss_fields (S V core : Nat) (reg : Nat → TSS)
    (stack g i v w : Nat) (translate : Nat → Option Nat) (tok : Bool)
    (hg : translate g = some v) (hi : translate i = some w) :
    ((set_current_core_tss S V core reg) core).rsp0 = S
  ∧ ((set_current_core_tss S V core reg) core).ist 0 = V
  ∧ (∀ c', c' ≠ core → set_current_core_tss S V core reg c' = reg c')
  ∧ (early_setup_arch stack core reg translate g i tok).trace
      = [Event.translateCall g, Event.translateCall i,
         Event.setTss stack 0, Event.loadTR, Event.trapInit] := by
  refine ⟨?_, ?_, ?_, ?_⟩
  · simp [set_current_core_tss]
  · simp [set_current_core_tss]
  · intro c' hc'
    simp [set_current_core_tss, Function.update_noteq hc']
  · cases tok <;> simp [early_setup_arch, hg, hi]

/-- C6 witness: the amended theorem applied at S = 7, V = 5 on core 0 of an
all-zero registry, with a translation oracle returning 4096. -/
theorem set_current_core_tss_fields_witness :
    ((set_current_core_tss 7 5 0 (fun _ => tss_default)) 0).rsp0 = 7
  ∧ ((set_current_core_tss 7 5 0 (fun _ => tss_default)) 0).ist 0 = 5
  ∧ (set_current_core_tss 7 5 0 (fun _ => tss_default)) 1 = tss_default
  ∧ (early_setup_arch 16 0 (fun _ => tss_default) (fun _ => some 4096) 1 2
      true).trace
      = [Event.translateCall 1, Event.translateCall 2,
         Event.setTss 16 0, Event.loadTR, Event.trapInit] := by
  have h := set_current_core_tss_fields 7 5 0 (fun _ => tss_default)
    16 1 2 4096 4096 (fun _ => some 4096) true rfl rfl
  exact ⟨h.1, h.2.1, h.2.2.1 1 (by decide), h.2.2.2⟩

/-- C7 counterexample: when arch_trap_init fails, the halt diagnostic the
code produces is "arch_trap_init failed" (the literal expect string at
mod.rs line 93), not the "trap initialization failed" the claim quotes. -/
theorem early_setup_arch_trap_msg :
    (early_setup_arch 16 0 (fun _ => tss_default) (fun _ => some 4096) 1 2
        false).outcome ≠ Outcome.panicked "trap initialization failed"
  ∧ (early_setup_arch 16 0 (fun _ => tss_default) (fun _ => some 4096) 1 2
        false).outcome = Outcome.panicked "arch_trap_init failed" := by
  constructor <;> simp [early_setup_arch, set_current_core_tss]

/-- C7 (amended): in early_setup_arch, trap initialization is invoked only
after the task-segment fields are configured and the task register is
loaded (trapInit is the last trace event, after setTss and loadTR); if
trap initialization fails the boot halts with the diagnostic
"arch_trap_init failed" while the executing core's task segment is already
correctly configured (ring-0 stack == stack_start, IST[0] == 0 — not
rolled back). -/
theorem early_setup_arch_trap_fail (stack core g i v w : Nat)
    (reg : Nat → TSS) (translate : Nat → Option Nat)
    (hg : translate g = some v) (hi : translate i = some w) :
    (early_setup_arch stack core reg translate g i false).outcome
      = Outcome.panicked "arch_trap_init failed"
  ∧ (early_setup_arch stack core reg translate g i false).trace
      = [Event.translateCall g, Event.translateCall i,
         Event.setTss stack 0, Event.loadTR, Event.trapInit]
  ∧ ((early_setup_arch stack core reg translate g i false).reg core).rsp0
      = stack
  ∧ ((early_setup_arch stack core reg translate g i false).reg core).ist 0
      = 0 := by
  refine ⟨?_, ?_, ?_, ?_⟩ <;>
    simp [early_setup_arch, hg, hi, set_current_core_tss]

/-- C7 witness: the amended theorem applied at concrete inputs with a
failing trap initializer. -/
theorem early_setup_arch_trap_fail_witness :
    (early_setup_arch 16 0 (fun _ => tss_default) (fun _ => some 4096) 1 2
        false).outcome = Outcome.panicked "arch_trap_init failed"
  ∧ ((early_setup_arch 16 0 (fun _ => tss_default) (fun _ => some 4096) 1 2
        false).reg 0).rsp0 = 16 := by
  have h := early_setup_arch_trap_fail 16 0 1 2 4096 4096
    (fun _ => tss_default) (fun _ => some 4096) rfl rfl
  exact ⟨h.1, h.2.2.1⟩

/-- C8: the post-memory-init architecture hook setup_arch is a pure no-op:
for every state it returns that state unchanged, makes no collaborator
call (empty trace), and returns Ok(()). -/
theorem setup_arch_noop {α : Type} (st : α) :
    setup_arch st = (st, [], Except.ok ()) := rfl

/-- C9: kernel_main discards the boolean outcome of the boot-info bridge
call: for both return values of multiboot2_init the outcome is the
hand-off to generic kernel startup and the trace continues identically
(second fence, then startKernel); a bridge failure is neither reported nor
fatal. -/
theorem kernel_main_discards_mb2_result (info magic gsz isz g i v w : Nat)
    (translate : Nat → Option Nat)
    (hg : translate g = some v) (hi : translate i = some w) :
    (kernel_main info magic gsz isz g i translate true).outcome
      = Outcome.startedKernel
  ∧ (kernel_main info magic gsz isz g i translate false).outcome
      = Outcome.startedKernel
  ∧ (kernel_main info magic gsz isz g i translate true).trace
      = [Event.translateCall g, Event.translateCall i,
         Event.lgdt ⟨v, limit16 gsz⟩, Event.lidt ⟨w, limit16 isz⟩,
         Event.fence,
         Event.multiboot2Init info (magic % 4294967296) true,
         Event.fence, Event.startKernel]
  ∧ (kernel_main info magic gsz isz g i translate false).trace
      = [Event.translateCall g, Event.translateCall i,
         Event.lgdt ⟨v, limit16 gsz⟩, Event.lidt ⟨w, limit16 isz⟩,
         Event.fence,
         Event.multiboot2Init info (magic % 4294967296) false,
         Event.fence, Event.startKernel] := by
  refine ⟨?_, ?_, ?_, ?_⟩ <;> simp [kernel_main, hg, hi]

/-- C9 witness: the discard theorem applied at concrete inputs. -/
theorem kernel_main_discards_mb2_result_witness :
    (kernel_main 0 0 16 32 1 2 (fun _ => some 4096) true).outcome
      = Outcome.startedKernel
  ∧ (kernel_main 0 0 16 32 1 2 (fun _ => some 4096) false).outcome
      = Outcome.startedKernel := by
  have h := kernel_main_discards_mb2_result 0 0 16 32 1 2 4096 4096
    (fun _ => some 4096) rfl rfl
  exact ⟨h.1, h.2.1⟩

/-- C10: early_setup_arch always invokes the task-segment configuration
with IST value 0 (the call is set_current_core_tss(stack_start, 0), and
the slot index in set_ist is 0), so afterwards the executing core's IST
slot 0 holds 0 and only the ring-0 stack pointer receives the real stack
address read from head_stack_start. -/
theorem early_setup_arch_ist0_zero (stack core g i v w : Nat)
    (reg : Nat → TSS) (translate : Nat → Option Nat) (tok : Bool)
    (hg : translate g = some v) (hi : translate i = some w) :
    Event.setTss stack 0 ∈
      (early_setup_arch stack core reg translate g i tok).trace
  ∧ ((early_setup_arch stack core reg translate g i tok).reg core).ist 0 = 0
  ∧ ((early_setup_arch stack core reg translate g i tok).reg core).rsp0
      = stack := by
  cases tok <;> refine ⟨?_, ?_, ?_⟩ <;>
    simp [early_setup_arch, hg, hi, set_current_core_tss]

/-- C10 witness: the theorem applied at concrete inputs (stack top 16,
core 0, translation returning 4096, trap initializer succeeding). -/
theorem early_setup_arch_ist0_zero_witness :
    Event.setTss 16 0 ∈
      (early_setup_arch 16 0 (fun _ => tss_default) (fun _ => some 4096) 1 2
        true).trace
  ∧ ((early_setup_arch 16 0 (fun _ => tss_default) (fun _ => some 4096) 1 2
        true).reg 0).ist 0 = 0 := by
  have h := early_setup_arch_ist0_zero 16 0 1 2 4096 4096
    (fun _ => tss_default) (fun _ => some 4096) true rfl rfl
  exact ⟨h.1, h.2.1⟩
